import Mathlib

/-!
Shallow embedding of the Opinion.Trade market-monitor bot
(`new-market-code.py`) together with proofs about its notification
dispatch core: the market parser, the seen-market ledger, the
filter-match engine, the rate-limited alert dispatcher, and state
persistence.

Modelling conventions:
* Python `datetime` values are epoch seconds (`Int`); `timedelta(hours=1)`
  is `3600`.
* Python `float` amounts (volume, liquidity, thresholds) are `ℚ`.
* Python dictionaries are association lists (`lookupA` / `setA` preserve
  insertion order and replace in place, like `dict`).
* Values of the `last_notified` dictionary are dynamically typed in the
  running program: `datetime` objects written by the dispatcher, or raw
  strings coming back from `load_data` (which does not parse the
  stringified timestamps).  They are modelled as `Int ⊕ String`.
* Python exceptions are modelled by `Except` with an error enumeration.
-/

namespace OpinionBot

/-- The Python exceptions relevant to this program. -/
inductive PyErr where
  | keyError
  | valueError
  | typeError
  | attributeError
deriving DecidableEq, Repr

deriving instance DecidableEq for Except

/-- A `last_notified` dictionary value: a `datetime` (epoch seconds) written
by `send_market_alert`, or a raw string produced by `load_data`. -/
abbrev TVal := Int ⊕ String

/-- Model of `@dataclass Market` (source lines 38-50). -/
structure Market where
  id : String
  question : String
  description : String
  category : String
  volume : ℚ
  liquidity : ℚ
  expiry : Int
  url : String
  created_at : Int
  tags : List String
deriving DecidableEq, Repr

/-- Model of `@dataclass UserPreferences` (source lines 52-61).  `enabled_categories`
is a Python `set`, modelled as a duplicate-free-by-use list; membership is
what the program reads. -/
structure UserPreferences where
  user_id : Int
  enabled_categories : List String
  keywords : List String
  min_liquidity : ℚ
  min_volume : ℚ
  notify_on_launch : Bool
  last_notified : List (String × TVal)
deriving DecidableEq, Repr

/-- The bot's mutable state: `self.seen_markets` and `self.user_prefs`
(source lines 67-68). -/
structure BotState where
  seen_markets : List String
  user_prefs : List (Int × UserPreferences)
deriving DecidableEq, Repr

/-- Association-list lookup, modelling Python `dict.get` / `d[k]`. -/
def lookupA [DecidableEq α] (k : α) : List (α × β) → Option β
  | [] => none
  | (k', v) :: rest => if k' = k then some v else lookupA k rest

/-- Association-list update, modelling Python `d[k] = v`: replace in place
if the key exists, append otherwise (dict insertion order). -/
def setA [DecidableEq α] (k : α) (v : β) : List (α × β) → List (α × β)
  | [] => [(k, v)]
  | (k', v') :: rest => if k' = k then (k, v) :: rest else (k', v') :: setA k v rest

/-- The fixed `CATEGORIES` table (source lines 26-35). -/
def CATEGORIES : List (String × String) :=
  [("politics", "Politics"), ("crypto", "Cryptocurrency"), ("sports", "Sports"),
   ("entertainment", "Entertainment"), ("technology", "Technology"),
   ("finance", "Finance"), ("science", "Science"), ("other", "Other")]

/-- Python's substring test `needle in hay` on character lists. -/
def isSubListOf (needle : List Char) : List Char → Bool
  | [] => needle.isEmpty
  | c :: rest => needle.isPrefixOf (c :: rest) || isSubListOf needle rest

/-- Python's `needle in hay` for strings. -/
def strContainsSub (hay needle : String) : Bool :=
  isSubListOf needle.data hay.data

/-- Translation of `market_matches_preferences` (source lines 186-206), the early-return
chain translated to nested conditionals.  The market text is
`f"{market.question} {market.description}".lower()`. -/
def market_matches_preferences (market : Market) (prefs : UserPreferences) : Bool :=
  -- `if prefs.enabled_categories and market.category not in prefs.enabled_categories`
  if !prefs.enabled_categories.isEmpty &&
      !decide (market.category ∈ prefs.enabled_categories) then
    false
  -- `if market.liquidity < prefs.min_liquidity`
  else if decide (market.liquidity < prefs.min_liquidity) then
    false
  -- `if market.volume < prefs.min_volume`
  else if decide (market.volume < prefs.min_volume) then
    false
  -- `if prefs.keywords: ... if not any(...)`
  else if !prefs.keywords.isEmpty then
    let market_text := (market.question ++ " " ++ market.description).toLower
    if !(prefs.keywords.any fun keyword => strContainsSub market_text keyword.toLower) then
      false
    else
      true
  else
    true

/-- Spec §4.3 sub-predicate 1: true if the enabled-category set is empty,
else true iff the market's category is a member. -/
def categoryPred (market : Market) (prefs : UserPreferences) : Bool :=
  prefs.enabled_categories.isEmpty || decide (market.category ∈ prefs.enabled_categories)

/-- Spec §4.3 sub-predicate 2: liquidity meets the minimum. -/
def liquidityPred (market : Market) (prefs : UserPreferences) : Bool :=
  prefs.min_liquidity ≤ market.liquidity

/-- Spec §4.3 sub-predicate 3: volume meets the minimum. -/
def volumePred (market : Market) (prefs : UserPreferences) : Bool :=
  prefs.min_volume ≤ market.volume

/-- Spec §4.3 sub-predicate 4: true if the keyword list is empty, else true
iff some keyword is a case-insensitive substring of title-plus-description. -/
def keywordPred (market : Market) (prefs : UserPreferences) : Bool :=
  prefs.keywords.isEmpty ||
    prefs.keywords.any fun keyword =>
      strContainsSub ((market.question ++ " " ++ market.description).toLower) keyword.toLower

/-- The §8.7 scenario market: `{id: "m1", category: "crypto",
liquidity: 750, volume: 1500}` (expiry/title fields immaterial). -/
def scenarioMarket : Market :=
  { id := "m1", question := "Will BTC hit 100k?", description := "",
    category := "crypto", volume := 1500, liquidity := 750,
    expiry := 2592000, url := "https://opinion.trade/market/m1",
    created_at := 0, tags := [] }

/-- Spec §8.7 subscriber 1: `{enabled_categories: {"crypto"}, min_liquidity: 100,
min_volume: 500, keywords: []}`. -/
def scenarioSub1 : UserPreferences :=
  { user_id := 1, enabled_categories := ["crypto"], keywords := [],
    min_liquidity := 100, min_volume := 500, notify_on_launch := true,
    last_notified := [] }

/-- Spec §8.7 subscriber 2: as subscriber 1 but `enabled_categories: {"politics"}`. -/
def scenarioSub2 : UserPreferences :=
  { scenarioSub1 with enabled_categories := ["politics"] }

/-- Spec §8.7 subscriber 3: as subscriber 1 but `enabled_categories: {}` and
`min_liquidity: 1000`. -/
def scenarioSub3 : UserPreferences :=
  { scenarioSub1 with enabled_categories := [], min_liquidity := 1000 }

/-- Days since 1970-01-01 of a proleptic-Gregorian civil date
(standard civil-from-days algorithm, inverse below). -/
def daysFromCivil (y m d : Int) : Int :=
  let y' := if m ≤ 2 then y - 1 else y
  let era := Int.fdiv y' 400
  let yoe := y' - era * 400
  let mp := if m > 2 then m - 3 else m + 9
  let doy := Int.fdiv (153 * mp + 2) 5 + d - 1
  let doe := yoe * 365 + Int.fdiv yoe 4 - Int.fdiv yoe 100 + doy
  era * 146097 + doe - 719468

/-- Civil date `(year, month, day)` of a days-since-epoch count. -/
def civilFromDays (z : Int) : Int × Int × Int :=
  let z' := z + 719468
  let era := Int.fdiv z' 146097
  let doe := z' - era * 146097
  let yoe :=
    Int.fdiv (doe - Int.fdiv doe 1460 + Int.fdiv doe 36524 - Int.fdiv doe 146096) 365
  let y := yoe + era * 400
  let doy := doe - (365 * yoe + Int.fdiv yoe 4 - Int.fdiv yoe 100)
  let mp := Int.fdiv (5 * doy + 2) 153
  let d := doy - Int.fdiv (153 * mp + 2) 5 + 1
  let m := if mp < 10 then mp + 3 else mp - 9
  (if m ≤ 2 then y + 1 else y, m, d)

/-- Zero-padded two-digit rendering of a small non-negative integer. -/
def pad2 (n : Int) : String :=
  if n < 10 then "0" ++ toString n else toString n

/-- Year rendering (years in this development are ≥ 1000). -/
def pad4 (n : Int) : String := toString n

/-- Python `str(datetime)`: `"YYYY-MM-DD HH:MM:SS"` for an epoch-seconds value
(microseconds are zero in this model, so Python omits them). -/
def pyStrOfDatetime (t : Int) : String :=
  let days := Int.fdiv t 86400
  let secs := t - 86400 * days
  let ymd := civilFromDays days
  let h := Int.fdiv secs 3600
  let mi := Int.fdiv (secs - 3600 * h) 60
  let s := secs - 3600 * h - 60 * mi
  pad4 ymd.1 ++ "-" ++ pad2 ymd.2.1 ++ "-" ++ pad2 ymd.2.2 ++ " " ++
    pad2 h ++ ":" ++ pad2 mi ++ ":" ++ pad2 s

/-- Rendering `market.expiry.strftime("%Y-%m-%d %H:%M UTC")` (source line 221). -/
def strftimeExpiry (t : Int) : String :=
  let days := Int.fdiv t 86400
  let secs := t - 86400 * days
  let ymd := civilFromDays days
  let h := Int.fdiv secs 3600
  let mi := Int.fdiv (secs - 3600 * h) 60
  pad4 ymd.1 ++ "-" ++ pad2 ymd.2.1 ++ "-" ++ pad2 ymd.2.2 ++ " " ++
    pad2 h ++ ":" ++ pad2 mi ++ " UTC"

/-- The data interpolated into the alert message f-string
(source lines 226-235), one field per placeholder. -/
structure AlertMessage where
  question : String
  volume : ℚ
  liquidity : ℚ
  categoryName : String
  expiryStr : String
  days_left : Int
  tags : List String
  url : String
deriving DecidableEq, Repr

/-- Python `timedelta.days` of a duration given in seconds: the normalized
representation keeps `0 ≤ seconds < 86400`, so `.days` is the floor of the
total duration in days. -/
def timedeltaDays (totalSeconds : Int) : Int :=
  Int.fdiv totalSeconds 86400

/-- Lookup `CATEGORIES.get(market.category, market.category)` (source line 231). -/
def categoriesGet (c : String) : String :=
  (lookupA c CATEGORIES).getD c

/-- The message built at source lines 220-235: `days_left` is
`(market.expiry - datetime.now(pytz.UTC)).days` and `tags` is
`market.tags[:5]`. -/
def buildAlertMessage (now : Int) (market : Market) : AlertMessage :=
  { question := market.question
    volume := market.volume
    liquidity := market.liquidity
    categoryName := categoriesGet market.category
    expiryStr := strftimeExpiry market.expiry
    days_left := timedeltaDays (market.expiry - now)
    tags := market.tags.take 5
    url := market.url }

/-- Translation of `send_market_alert` (source lines 209-249).  `channelOk` is the outcome
of the external `bot.send_message` call; the returned list holds the
delivery attempts `(chat_id, message)` made (at most one).  A `last_notified`
entry that is a raw string (as produced by `load_data`) makes
`datetime.now() - last_notified` raise `TypeError` (line 217). -/
def send_market_alert (channelOk : Bool) (now : Int) (st : BotState)
    (user_id : Int) (market : Market) :
    Except PyErr (List (Int × AlertMessage) × BotState) :=
  match lookupA user_id st.user_prefs with
  | none => .ok ([], st)
  | some prefs =>
    if !prefs.notify_on_launch then .ok ([], st)
    else
      let attempt : Except PyErr (List (Int × AlertMessage) × BotState) :=
        let msg := buildAlertMessage now market
        let prefs' :=
          { prefs with last_notified := setA market.id (Sum.inl now) prefs.last_notified }
        if channelOk then
          .ok ([(user_id, msg)], { st with user_prefs := setA user_id prefs' st.user_prefs })
        else
          -- delivery failed: exception caught and logged, state unchanged
          .ok ([(user_id, msg)], st)
      match lookupA market.id prefs.last_notified with
      | some (Sum.inr _) => .error .typeError
      | some (Sum.inl t) => if now - t < 3600 then .ok ([], st) else attempt
      | none => attempt

/-- The body of the `for market in new_markets` loop of `check_new_markets`
(source lines 258-265).  The subscriber loop calls
`self.mark_matches_preferences(market, prefs)` (line 264); no method of that
name is defined on the class (the predicate is named
`market_matches_preferences`), so the attribute lookup raises
`AttributeError` on the first subscriber.  An error carries the in-memory
state at the moment the exception propagates. -/
def processNewMarkets : List Market → BotState → Except (PyErr × BotState) BotState
  | [], st => .ok st
  | market :: rest, st =>
    let st' := { st with seen_markets :=
      if st.seen_markets.contains market.id then st.seen_markets
      else st.seen_markets ++ [market.id] }
    match st'.user_prefs with
    | [] => processNewMarkets rest st'
    | _ :: _ => .error (.attributeError, st')

/-- Translation of `check_new_markets` (source lines 251-267), taking the already-parsed
fetch result as input.  `new_markets` is computed once against the ledger;
`.ok st` means the cycle completed and `save_data` persisted `st`. -/
def check_new_markets (markets : List Market) (st : BotState) :
    Except (PyErr × BotState) BotState :=
  let new_markets := markets.filter fun m => !st.seen_markets.contains m.id
  processNewMarkets new_markets st

/-- The default preferences created by `/start` (source lines 294-302):
all categories enabled, no keywords, zero thresholds, notifications on,
empty last-notified map. -/
def defaultPreferences (user_id : Int) : UserPreferences :=
  { user_id := user_id
    enabled_categories := CATEGORIES.map Prod.fst
    keywords := []
    min_liquidity := 0
    min_volume := 0
    notify_on_launch := true
    last_notified := [] }

/-- The state effect of `cmd_start` (source lines 288-303): create defaults
only when the subscriber is absent.  The Boolean records whether
`save_data` was called. -/
def cmd_start (user_id : Int) (st : BotState) : BotState × Bool :=
  match lookupA user_id st.user_prefs with
  | some _ => (st, false)
  | none =>
    ({ st with user_prefs := setA user_id (defaultPreferences user_id) st.user_prefs },
      true)

/-- One subscriber's slice of the JSON file written by `save_data`
(source lines 123-131).  `json.dump(..., default=str)` stringifies the
`datetime` values of `last_notified`. -/
structure SavedPrefs where
  enabled_categories : List String
  keywords : List String
  min_liquidity : ℚ
  min_volume : ℚ
  notify_on_launch : Bool
  last_notified : List (String × String)
deriving DecidableEq, Repr

/-- The JSON file layout written by `save_data` (source lines 116-134). -/
structure SavedData where
  seen_markets : List String
  user_prefs : List (String × SavedPrefs)
deriving DecidableEq, Repr

/-- How `json.dump(..., default=str)` serializes a `last_notified` value:
`datetime` objects go through `str`, strings are emitted as-is. -/
def jsonOfTVal : TVal → String
  | Sum.inl t => pyStrOfDatetime t
  | Sum.inr s => s

/-- Translation of `save_data` (source lines 116-134). -/
def save_data (st : BotState) : SavedData :=
  { seen_markets := st.seen_markets
    user_prefs := st.user_prefs.map fun p =>
      (toString p.1,
        { enabled_categories := p.2.enabled_categories
          keywords := p.2.keywords
          min_liquidity := p.2.min_liquidity
          min_volume := p.2.min_volume
          notify_on_launch := p.2.notify_on_launch
          last_notified := p.2.last_notified.map fun e => (e.1, jsonOfTVal e.2) }) }

/-- Value of a decimal digit string. -/
def decDigitsToNat (cs : List Char) : Nat :=
  cs.foldl (fun a c => 10 * a + (c.toNat - 48)) 0

/-- Python `int(string)` on the decimal strings produced by `str(int)`
(the only inputs it receives here: the saved user-id keys). -/
def pyInt (s : String) : Int :=
  match s.data with
  | '-' :: rest => -(decDigitsToNat rest : Int)
  | cs => (decDigitsToNat cs : Int)

/-- Translation of `load_data` (source lines 92-114) applied to an existing data file.
`int(user_id_str)` is `pyInt` (saved keys always parse).  Line 109 stores
`prefs['last_notified']` verbatim: the JSON values are strings and are NOT
parsed back into `datetime`, so they load as `Sum.inr`. -/
def load_data (d : SavedData) : BotState :=
  { seen_markets := d.seen_markets
    user_prefs := d.user_prefs.map fun p =>
      let uid := pyInt p.1
      (uid,
        { user_id := uid
          enabled_categories := p.2.enabled_categories
          keywords := p.2.keywords
          min_liquidity := p.2.min_liquidity
          min_volume := p.2.min_volume
          notify_on_launch := p.2.notify_on_launch
          last_notified := p.2.last_notified.map fun e => (e.1, Sum.inr e.2) }) }

/-- Ceiling of a duration in whole days, as spec §4.4 words it:
`ceil(expiry - now)` in whole days. -/
def specCeilDays (totalSeconds : Int) : Int :=
  -(Int.fdiv (-totalSeconds) 86400)

/-- A JSON value as it can appear in a field of a raw API record
(arrays occur only as string lists, for `tags`). -/
inductive JVal where
  | str (s : String)
  | num (q : ℚ)
  | jbool (b : Bool)
  | null
  | arr (xs : List String)
deriving DecidableEq, Repr

/-- One raw record of the API response's `markets` array, as a record of
optional JSON fields (`none` = key absent). -/
structure RawItem where
  id : Option JVal := none
  question : Option JVal := none
  description : Option JVal := none
  category : Option JVal := none
  volume : Option JVal := none
  liquidity : Option JVal := none
  expiry : Option JVal := none
  created_at : Option JVal := none
  tags : Option (List String) := none
deriving DecidableEq, Repr

/-- Python `str()` of a JSON value (numeric rendering abstracted by the
`Rat` printer; every claim-relevant use is on strings). -/
def pyStr : JVal → String
  | .str s => s
  | .num q => toString q
  | .jbool b => if b then "True" else "False"
  | .null => "None"
  | .arr xs => "[" ++ String.intercalate ", " xs ++ "]"

/-- Value of an unsigned all-digit character list. -/
def natDigitsVal (cs : List Char) : ℚ :=
  cs.foldl (fun acc c => 10 * acc + ((c.toNat : ℚ) - 48)) 0

/-- Value of a fractional digit string (the part after the point). -/
def fracDigitsVal (cs : List Char) : ℚ :=
  cs.foldr (fun c acc => (((c.toNat : ℚ) - 48) + acc) / 10) 0

/-- Unsigned decimal literal: `digits`, `digits.digits`, `digits.` or
`.digits`. -/
def parseUnsignedFloat (cs : List Char) : Option ℚ :=
  let intPart := cs.takeWhile Char.isDigit
  let rest := cs.dropWhile Char.isDigit
  match rest with
  | [] => if intPart.isEmpty then none else some (natDigitsVal intPart)
  | '.' :: frac =>
    if frac.all Char.isDigit && !(intPart.isEmpty && frac.isEmpty) then
      some (natDigitsVal intPart + fracDigitsVal frac)
    else none
  | _ => none

/-- Python `float(string)`: strip surrounding spaces, optional sign,
decimal literal (exotic accepted forms such as exponents, `inf`, `nan`
or underscores are not modelled; no claim depends on them). -/
def parseFloatStr (s : String) : Option ℚ :=
  let cs := ((s.data.dropWhile (· = ' ')).reverse.dropWhile (· = ' ')).reverse
  match cs with
  | '-' :: rest => (parseUnsignedFloat rest).map Neg.neg
  | '+' :: rest => parseUnsignedFloat rest
  | _ => parseUnsignedFloat cs

/-- Python `float()` applied to a JSON value: numbers pass through, bools
coerce, strings are parsed (`ValueError` when malformed), `None` and lists
raise `TypeError`. -/
def pyFloat : JVal → Except PyErr ℚ
  | .num q => .ok q
  | .jbool b => .ok (if b then 1 else 0)
  | .str s =>
    match parseFloatStr s with
    | some q => .ok q
    | none => .error .valueError
  | .null => .error .typeError
  | .arr _ => .error .typeError

/-- Two-digit field value. -/
def digit2 (c1 c2 : Char) : Int :=
  ((c1.toNat : Int) - 48) * 10 + ((c2.toNat : Int) - 48)

/-- Whether a character list ends with the given suffix. -/
def endsWithL (suffix cs : List Char) : Bool :=
  suffix.reverse.isPrefixOf cs.reverse

/-- Model of `datetime.fromisoformat` on the claim-relevant subset
`"YYYY-MM-DD[T ]HH:MM:SS"` with an optional trailing `"+00:00"` offset;
`none` models the `ValueError` raised on anything malformed. -/
def parseIso (s : String) : Option Int :=
  let cs := s.data
  let cs' := if endsWithL "+00:00".data cs then cs.take (cs.length - 6) else cs
  match cs' with
  | [y1, y2, y3, y4, '-', m1, m2, '-', d1, d2, sep, h1, h2, ':', n1, n2, ':', s1, s2] =>
    if [y1, y2, y3, y4, m1, m2, d1, d2, h1, h2, n1, n2, s1, s2].all Char.isDigit &&
        (sep = 'T' || sep = ' ') then
      let y := ((y1.toNat : Int) - 48) * 1000 + ((y2.toNat : Int) - 48) * 100 +
        ((y3.toNat : Int) - 48) * 10 + ((y4.toNat : Int) - 48)
      let mo := digit2 m1 m2
      let d := digit2 d1 d2
      let h := digit2 h1 h2
      let mi := digit2 n1 n2
      let sec := digit2 s1 s2
      if 1 ≤ mo && mo ≤ 12 && 1 ≤ d && d ≤ 31 && h ≤ 23 && mi ≤ 59 && sec ≤ 59 then
        some (daysFromCivil y mo d * 86400 + h * 3600 + mi * 60 + sec)
      else none
    else none
  | _ => none

/-- Field read `item.get('category', 'other').lower()` (source line 170): default when
absent, lower-cased when a string, `AttributeError` otherwise (no `.lower`
on non-strings). -/
def parseCategoryField : Option JVal → Except PyErr String
  | none => .ok "other"
  | some (.str s) => .ok s.toLower
  | some _ => .error .attributeError

/-- Replace every occurrence of `pat` (non-empty) in the remaining
characters; the fuel starts at the text length and bounds the recursion. -/
def replaceFuel (pat rep : List Char) : Nat → List Char → List Char
  | 0, l => l
  | _ + 1, [] => []
  | fuel + 1, c :: rest =>
    if pat.isPrefixOf (c :: rest) then
      rep ++ replaceFuel pat rep fuel ((c :: rest).drop pat.length)
    else
      c :: replaceFuel pat rep fuel rest

/-- Python `s.replace(pat, rep)` for a non-empty pattern. -/
def pyReplace (s pat rep : String) : String :=
  ⟨replaceFuel pat.data rep.data s.data.length s.data⟩

/-- Outcome of `datetime.fromisoformat`: a parsed timestamp or `ValueError`. -/
def tsOfParse : Option Int → Except PyErr Int
  | some t => .ok t
  | none => .error .valueError

/-- Field read `datetime.fromisoformat(item[key].replace('Z', '+00:00'))` (source
lines 173 and 175): `KeyError` when the key is absent, `ValueError` when
the string does not parse, `AttributeError` when the value is not a string
(no `.replace` on non-strings). -/
def parseTimestampField : Option JVal → Except PyErr Int
  | none => .error .keyError
  | some (.str s) => tsOfParse (parseIso (pyReplace s "Z" "+00:00"))
  | some _ => .error .attributeError

/-- The `Market(...)` construction for one raw record (source lines
166-177), evaluating the constructor arguments in source order. -/
def parseItem (item : RawItem) : Except PyErr Market :=
  match item.id with
  | none => .error .keyError
  | some idv =>
    let question := match item.question with | none => "No title" | some v => pyStr v
    let description := match item.description with | none => "" | some v => pyStr v
    match parseCategoryField item.category with
    | .error e => .error e
    | .ok category =>
      match pyFloat (item.volume.getD (JVal.num 0)) with
      | .error e => .error e
      | .ok volume =>
        match pyFloat (item.liquidity.getD (JVal.num 0)) with
        | .error e => .error e
        | .ok liquidity =>
          match parseTimestampField item.expiry with
          | .error e => .error e
          | .ok expiry =>
            match parseTimestampField item.created_at with
            | .error e => .error e
            | .ok created_at =>
              .ok { id := pyStr idv
                    question := question
                    description := description
                    category := category
                    volume := volume
                    liquidity := liquidity
                    expiry := expiry
                    url := "https://opinion.trade/market/" ++ pyStr idv
                    created_at := created_at
                    tags := item.tags.getD [] }

/-- Translation of `parse_markets` (source lines 159-183): the per-record loop whose
`try/except (KeyError, ValueError)` logs and skips those two exception
classes; any other exception propagates out of the loop. -/
def parse_markets : List RawItem → Except PyErr (List Market)
  | [] => .ok []
  | item :: rest =>
    match parseItem item with
    | .ok m => (parse_markets rest).map fun ms => m :: ms
    | .error .keyError => parse_markets rest
    | .error .valueError => parse_markets rest
    | .error e => .error e

/-- A JSON value whose runtime type a `float(...)` call accepts. -/
def floatableJ : JVal → Bool
  | .num _ => true
  | .jbool _ => true
  | .str _ => true
  | _ => false

/-- A JSON string. -/
def strJ : JVal → Bool
  | .str _ => true
  | _ => false

/-- A raw record whose present fields all have the runtime types the parser
calls methods on: string timestamps and category, floatable amounts. -/
def wellTypedItem (i : RawItem) : Bool :=
  i.category.all strJ && i.volume.all floatableJ && i.liquidity.all floatableJ &&
    i.expiry.all strJ && i.created_at.all strJ

/-- The markets a parse result contributes: `some` for a parsed record,
`none` for a skipped one. -/
def okOption : Except PyErr Market → Option Market
  | .ok m => some m
  | .error _ => none

/-- A second scenario market, identical to `scenarioMarket` but with
identifier `m2`. -/
def scenarioMarketB : Market :=
  { scenarioMarket with id := "m2", url := "https://opinion.trade/market/m2" }

/-- A one-subscriber bot state with an empty ledger, used to evaluate
`check_new_markets`. -/
def cycleState1 : BotState :=
  { seen_markets := [], user_prefs := [(1, scenarioSub1)] }

/-- A subscriber with no filters, notifications on, and one last-notified
entry for market `m1` at time 100. -/
def aliceSub : UserPreferences :=
  { user_id := 7, enabled_categories := [], keywords := [],
    min_liquidity := 0, min_volume := 0, notify_on_launch := true,
    last_notified := [("m1", Sum.inl 100)] }

/-- A bot state holding only `aliceSub`. -/
def aliceState : BotState :=
  { seen_markets := [], user_prefs := [(7, aliceSub)] }

/-- A subscriber with notifications disabled. -/
def bobSub : UserPreferences :=
  { aliceSub with user_id := 8, notify_on_launch := false }

/-- A bot state holding only `bobSub`. -/
def bobState : BotState :=
  { seen_markets := [], user_prefs := [(8, bobSub)] }

/-- A state with a populated ledger and a subscriber whose `last_notified`
holds a `datetime` value, used for the persistence round trip. -/
def persistState : BotState :=
  { seen_markets := ["m1"],
    user_prefs := [(7,
      { user_id := 7, enabled_categories := ["crypto"], keywords := ["btc"],
        min_liquidity := 100, min_volume := 500, notify_on_launch := true,
        last_notified := [("m1", Sum.inl 3600)] })] }

/-- A raw record with an identifier but no `expiry` key (§8.8 scenario). -/
def itemMissingExpiry : RawItem :=
  { id := some (.str "m9"), question := some (.str "Broken") }

/-- A fully valid raw record. -/
def itemGoodRaw : RawItem :=
  { id := some (.str "g1"), question := some (.str "Good?"),
    expiry := some (.str "2026-01-01T00:00:00Z"),
    created_at := some (.str "2025-06-01T00:00:00Z") }

/-- A raw record whose `expiry` is a JSON number: `item['expiry'].replace`
then raises `AttributeError`, which `except (KeyError, ValueError)` does
not catch. -/
def itemNumericExpiry : RawItem :=
  { id := some (.str "x"), expiry := some (.num 5) }

/-- The bot state after a successful delivery to `uid`: only that
subscriber's record changes, and in it only the `last_notified` entry for
the one market id. -/
def stateAfterNotify (st : BotState) (uid : Int) (prefs : UserPreferences)
    (mid : String) (now : Int) : BotState :=
  let prefs' := { prefs with last_notified := setA mid (Sum.inl now) prefs.last_notified }
  { st with user_prefs := setA uid prefs' st.user_prefs }

/-- Strict and non-strict rational comparison decide to opposite Booleans. -/
theorem decide_lt_eq_not_decide_le (a b : ℚ) : decide (a < b) = !decide (b ≤ a) := by
  by_cases h : b ≤ a
  · simp [h, not_lt.mpr h]
  · simp [h, not_le.mp h]

/-- C1: the filter-match predicate is exactly the conjunction of the four
§4.3 sub-predicates (category, liquidity, volume, keyword), and the three
§8.7 concrete scenarios evaluate as the spec states. -/
theorem matches_is_conjunction_and_scenarios :
    (∀ (market : Market) (prefs : UserPreferences),
      market_matches_preferences market prefs =
        (categoryPred market prefs && liquidityPred market prefs &&
          volumePred market prefs && keywordPred market prefs)) ∧
    market_matches_preferences scenarioMarket scenarioSub1 = true ∧
    market_matches_preferences scenarioMarket scenarioSub2 = false ∧
    market_matches_preferences scenarioMarket scenarioSub3 = false := by
  refine ⟨fun market prefs => ?_, by decide, by decide, by decide⟩
  cases hE : prefs.enabled_categories.isEmpty <;>
    cases hM : decide (market.category ∈ prefs.enabled_categories) <;>
    cases hL : decide (prefs.min_liquidity ≤ market.liquidity) <;>
    cases hV : decide (prefs.min_volume ≤ market.volume) <;>
    cases hK : prefs.keywords.isEmpty <;>
    cases hA : (prefs.keywords.any fun keyword =>
      strContainsSub ((market.question ++ " " ++ market.description).toLower)
        keyword.toLower) <;>
    simp [market_matches_preferences, categoryPred, liquidityPred, volumePred,
      keywordPred, decide_lt_eq_not_decide_le, hE, hM, hL, hV, hK, hA]

/-- Updating a key and then reading it back yields the written value. -/
theorem lookupA_setA_self [DecidableEq α] (k : α) (v : β) (l : List (α × β)) :
    lookupA k (setA k v l) = some v := by
  induction l with
  | nil => simp [setA, lookupA]
  | cons p rest ih =>
    by_cases h : p.1 = k <;> simp [setA, lookupA, h, ih]

/-- Updating one key leaves every other key's binding unchanged. -/
theorem lookupA_setA_ne [DecidableEq α] (k k' : α) (v : β) (l : List (α × β))
    (h : k' ≠ k) : lookupA k' (setA k v l) = lookupA k' l := by
  have hkk : ¬ k = k' := fun hh => h hh.symm
  induction l with
  | nil => simp [setA, lookupA, hkk]
  | cons p rest ih =>
    by_cases hp : p.1 = k
    · subst hp
      simp [setA, lookupA, hkk]
    · simp [setA, lookupA, hp, ih]

/-- C3: for a matching, enabled subscriber, `send_market_alert` suppresses
(no send, no error, no state change) when the per-(subscriber, market)
last-notified timestamp is within the one-hour cooldown; with no timestamp
or an elapsed one it attempts exactly one send and, on channel success,
sets that pair's timestamp to the current time (the update touches only
this subscriber's record, keyed by this market's id). -/
theorem sendAlert_cooldown_behaviour (st : BotState) (uid : Int) (market : Market)
    (now t : Int) (prefs : UserPreferences) (channelOk : Bool) (uid' : Int)
    (hp : lookupA uid st.user_prefs = some prefs)
    (hn : prefs.notify_on_launch = true)
    (hm : market_matches_preferences market prefs = true) :
    (lookupA market.id prefs.last_notified = some (Sum.inl t) → now - t < 3600 →
      send_market_alert channelOk now st uid market = .ok ([], st))
    ∧ (lookupA market.id prefs.last_notified = none →
        send_market_alert channelOk now st uid market =
          .ok ([(uid, buildAlertMessage now market)],
            if channelOk then stateAfterNotify st uid prefs market.id now else st))
    ∧ (lookupA market.id prefs.last_notified = some (Sum.inl t) → 3600 ≤ now - t →
        send_market_alert channelOk now st uid market =
          .ok ([(uid, buildAlertMessage now market)],
            if channelOk then stateAfterNotify st uid prefs market.id now else st))
    ∧ (∀ res, send_market_alert channelOk now st uid market = .ok res → uid' ≠ uid →
        lookupA uid' res.2.user_prefs = lookupA uid' st.user_prefs) := by
  refine ⟨?_, ?_, ?_, ?_⟩
  · intro hl hcool
    simp [send_market_alert, hp, hn, hl, hcool]
  · intro hl
    cases channelOk <;> simp [send_market_alert, stateAfterNotify, hp, hn, hl]
  · intro hl hcool
    cases channelOk <;>
      simp [send_market_alert, stateAfterNotify, hp, hn, hl, not_lt.mpr hcool]
  · intro res hres hne
    rcases hl : lookupA market.id prefs.last_notified with _ | tv
    · cases channelOk <;>
        simp [send_market_alert, hp, hn, hl] at hres <;>
        subst hres <;>
        first
          | rfl
          | simp [lookupA_setA_ne _ _ _ _ hne]
    · rcases tv with t' | s
      · by_cases hcool : now - t' < 3600
        · simp [send_market_alert, hp, hn, hl, hcool] at hres
          subst hres
          rfl
        · cases channelOk <;>
            simp [send_market_alert, hp, hn, hl, hcool] at hres <;>
            subst hres <;>
            first
              | rfl
              | simp [lookupA_setA_ne _ _ _ _ hne]
      · simp [send_market_alert, hp, hn, hl] at hres

/-- Witness for C3: with the cooldown elapsed (last notified at 100, now
5000) and a successful channel, exactly one send is attempted and the
pair's timestamp advances to 5000. -/
theorem sendAlert_cooldown_behaviour_witness :
    send_market_alert true 5000 aliceState 7 scenarioMarket =
      .ok ([(7, buildAlertMessage 5000 scenarioMarket)],
        stateAfterNotify aliceState 7 aliceSub "m1" 5000) := by
  exact (sendAlert_cooldown_behaviour aliceState 7 scenarioMarket 5000 100
    aliceSub true 0 rfl rfl (by decide)).2.2.1 rfl (by decide)

/-- C4: when the channel delivery fails (`channelOk = false`), the attempt
is made but the function returns normally (`.ok`, no propagated error) with
the state completely unchanged — in particular the (subscriber, market)
last-notified entry is untouched, so a later cycle with the same clear
cooldown retries, and no other subscriber's record is affected. -/
theorem sendAlert_failure_no_update (st : BotState) (uid : Int) (market : Market)
    (now : Int) (prefs : UserPreferences)
    (hp : lookupA uid st.user_prefs = some prefs)
    (hn : prefs.notify_on_launch = true)
    (hcool : lookupA market.id prefs.last_notified = none ∨
      ∃ t, lookupA market.id prefs.last_notified = some (Sum.inl t) ∧ 3600 ≤ now - t) :
    send_market_alert false now st uid market =
      .ok ([(uid, buildAlertMessage now market)], st) := by
  rcases hcool with hl | ⟨t, hl, ht⟩
  · simp [send_market_alert, hp, hn, hl]
  · simp [send_market_alert, hp, hn, hl, not_lt.mpr ht]

/-- Witness for C4: a failed delivery to `aliceSub` after the cooldown has
elapsed leaves the state exactly as it was. -/
theorem sendAlert_failure_no_update_witness :
    send_market_alert false 5000 aliceState 7 scenarioMarket =
      .ok ([(7, buildAlertMessage 5000 scenarioMarket)], aliceState) := by
  exact sendAlert_failure_no_update aliceState 7 scenarioMarket 5000 aliceSub
    rfl rfl (Or.inr ⟨100, rfl, by decide⟩)

/-- C8: a subscriber whose `notify_on_launch` flag is false gets no send
attempt and an unchanged state, for every market, clock, and channel
outcome — `send_market_alert` returns before even looking at the filters
(source lines 211-213). -/
theorem sendAlert_disabled_no_send (st : BotState) (uid : Int) (market : Market)
    (now : Int) (channelOk : Bool) (prefs : UserPreferences)
    (hp : lookupA uid st.user_prefs = some prefs)
    (hn : prefs.notify_on_launch = false) :
    send_market_alert channelOk now st uid market = .ok ([], st) := by
  simp [send_market_alert, hp, hn]

/-- Witness for C8: `bobSub` has alerts disabled, so nothing is sent even
for a market that matches its (empty, hence all-pass) filters. -/
theorem sendAlert_disabled_no_send_witness :
    send_market_alert true 0 bobState 8 scenarioMarket = .ok ([], bobState) := by
  exact sendAlert_disabled_no_send bobState 8 scenarioMarket 0 true bobSub rfl rfl

/-- C9 counterexample: the claim says the days-remaining figure equals
`ceil(expiry - now)` in whole days; with 2591999 seconds (one second short
of 30 days) remaining, the rendered figure is 29 while the ceiling is 30. -/
theorem daysLeft_ne_ceiling_counterexample :
    (buildAlertMessage 1 scenarioMarket).days_left ≠
      specCeilDays (scenarioMarket.expiry - 1) := by
  decide

/-- C9 (amended): the days-remaining figure in the rendered message is the
FLOOR of `(expiry - now)` in whole days (`timedelta.days`), which equals
the spec's ceiling minus one whenever the remaining time is not an exact
number of days. -/
theorem daysLeft_is_floor (now : Int) (market : Market) :
    (buildAlertMessage now market).days_left = Int.fdiv (market.expiry - now) 86400 ∧
    (¬ (86400 : Int) ∣ (market.expiry - now) →
      (buildAlertMessage now market).days_left = specCeilDays (market.expiry - now) - 1) := by
  refine ⟨rfl, fun hnd => ?_⟩
  show timedeltaDays (market.expiry - now) = specCeilDays (market.expiry - now) - 1
  unfold timedeltaDays specCeilDays
  rw [Int.fdiv_eq_ediv _ (by norm_num), Int.fdiv_eq_ediv _ (by norm_num)]
  omega

/-- Witness for C9: with 2591999 seconds remaining the message shows
`30 - 1 = 29` days. -/
theorem daysLeft_is_floor_witness :
    (buildAlertMessage 1 scenarioMarket).days_left =
      specCeilDays (scenarioMarket.expiry - 1) - 1 := by
  exact (daysLeft_is_floor 1 scenarioMarket).2 (by decide)

/-- C2 (bug evaluation): a cycle with one new market and one subscriber
whose preferences match never reaches the filter predicate or the
dispatcher: the call `self.mark_matches_preferences(market, prefs)`
(line 264) raises `AttributeError` — the defined method is
`market_matches_preferences` — so no delivery is attempted and `save_data`
is never called, while the in-memory ledger already holds the market. -/
theorem checkNewMarkets_misspelled_predicate_aborts :
    check_new_markets [scenarioMarket] cycleState1 =
      .error (.attributeError,
        { seen_markets := ["m1"], user_prefs := [(1, scenarioSub1)] }) ∧
    market_matches_preferences scenarioMarket scenarioSub1 = true := by
  exact ⟨rfl, by decide⟩

/-- C5 (bug evaluation): with two new markets and one subscriber, the
`AttributeError` from the misspelled predicate call aborts the cycle after
the first market was added to the ledger, so the second new market of the
same batch is never added in that cycle.  A market already in the ledger
is filtered out up front: with no subscribers (so the loop body cannot
raise) an already-seen market leaves the state untouched and the cycle
completes. -/
theorem checkNewMarkets_ledger_abort_second_market :
    check_new_markets [scenarioMarket, scenarioMarketB] cycleState1 =
      .error (.attributeError,
        { seen_markets := ["m1"], user_prefs := [(1, scenarioSub1)] }) ∧
    ("m2" ∈ (["m1"] : List String)) = False ∧
    check_new_markets [scenarioMarket] { seen_markets := ["m1"], user_prefs := [] } =
      .ok { seen_markets := ["m1"], user_prefs := [] } := by
  exact ⟨rfl, by simp, rfl⟩

/-- C6 (bug evaluation): the persistence round trip loses the type of the
`last_notified` values: `save_data` stringifies the `datetime` via
`json.dump(..., default=str)` and `load_data` stores the raw strings back
without parsing (line 109), so the reloaded state differs from the saved
one even though the ledger and every other preference field round-trip. -/
theorem saveLoad_roundtrip_loses_timestamps :
    load_data (save_data persistState) ≠ persistState ∧
    (load_data (save_data persistState)).seen_markets = persistState.seen_markets ∧
    lookupA 7 (load_data (save_data persistState)).user_prefs =
      some { user_id := 7,
             enabled_categories := ["crypto"],
             keywords := ["btc"],
             min_liquidity := 100,
             min_volume := 500,
             notify_on_launch := true,
             last_notified := [("m1", Sum.inr "1970-01-01 01:00:00")] } := by
  refine ⟨by decide, rfl, by decide⟩

/-- A well-typed category field parses without error. -/
theorem parseCategoryField_ok (o : Option JVal) (h : o.all strJ = true) :
    ∃ c, parseCategoryField o = .ok c := by
  rcases o with _ | v
  · exact ⟨"other", rfl⟩
  · cases v with
    | str s => exact ⟨s.toLower, rfl⟩
    | num q => simp [Option.all, strJ] at h
    | jbool b => simp [Option.all, strJ] at h
    | null => simp [Option.all, strJ] at h
    | arr xs => simp [Option.all, strJ] at h

/-- Applying `float()` to a floatable value raises at worst `ValueError`. -/
theorem pyFloat_ok_or_value (v : JVal) (h : floatableJ v = true) :
    pyFloat v = .error .valueError ∨ ∃ q, pyFloat v = .ok q := by
  cases v with
  | num q => exact Or.inr ⟨q, rfl⟩
  | jbool b => exact Or.inr ⟨if b then 1 else 0, rfl⟩
  | str s =>
    rcases hp : parseFloatStr s with _ | q
    · exact Or.inl (by simp [pyFloat, hp])
    · exact Or.inr ⟨q, by simp [pyFloat, hp]⟩
  | null => simp [floatableJ] at h
  | arr xs => simp [floatableJ] at h

/-- A well-typed volume/liquidity field (with its `item.get(..., 0)`
default) raises at worst `ValueError`. -/
theorem pyFloatField_classify (o : Option JVal) (h : o.all floatableJ = true) :
    pyFloat (o.getD (JVal.num 0)) = .error .valueError ∨
      ∃ q, pyFloat (o.getD (JVal.num 0)) = .ok q := by
  rcases o with _ | v
  · exact Or.inr ⟨0, rfl⟩
  · simpa [Option.getD] using pyFloat_ok_or_value v (by simpa [Option.all] using h)

/-- A well-typed timestamp field raises at worst `KeyError` or
`ValueError`. -/
theorem parseTimestampField_classify (o : Option JVal) (h : o.all strJ = true) :
    parseTimestampField o = .error .keyError ∨
      parseTimestampField o = .error .valueError ∨
      ∃ t, parseTimestampField o = .ok t := by
  rcases o with _ | v
  · exact Or.inl rfl
  · cases v with
    | str s =>
      rcases hp : parseIso (pyReplace s "Z" "+00:00") with _ | t
      · refine Or.inr (Or.inl ?_)
        show tsOfParse (parseIso (pyReplace s "Z" "+00:00")) = .error .valueError
        rw [hp]
        rfl
      · refine Or.inr (Or.inr ⟨t, ?_⟩)
        show tsOfParse (parseIso (pyReplace s "Z" "+00:00")) = .ok t
        rw [hp]
        rfl
    | num q => simp [Option.all, strJ] at h
    | jbool b => simp [Option.all, strJ] at h
    | null => simp [Option.all, strJ] at h
    | arr xs => simp [Option.all, strJ] at h

/-- On a well-typed record, `parseItem` either fails with one of the two
caught exception classes or succeeds. -/
theorem parseItem_welltyped_classify (i : RawItem) (hw : wellTypedItem i = true) :
    parseItem i = .error .keyError ∨ parseItem i = .error .valueError ∨
      ∃ m, parseItem i = .ok m := by
  simp only [wellTypedItem, Bool.and_eq_true] at hw
  obtain ⟨⟨⟨⟨hcat, hvol⟩, hliq⟩, hexp⟩, hcre⟩ := hw
  rcases hid : i.id with _ | idv
  · exact Or.inl (by simp [parseItem, hid])
  · obtain ⟨c, hc⟩ := parseCategoryField_ok i.category hcat
    rcases pyFloatField_classify i.volume hvol with hvv | ⟨qv, hvv⟩
    · exact Or.inr (Or.inl (by simp [parseItem, hid, hc, hvv]))
    · rcases pyFloatField_classify i.liquidity hliq with hlv | ⟨ql, hlv⟩
      · exact Or.inr (Or.inl (by simp [parseItem, hid, hc, hvv, hlv]))
      · rcases parseTimestampField_classify i.expiry hexp with hek | hev | ⟨te, hte⟩
        · exact Or.inl (by simp [parseItem, hid, hc, hvv, hlv, hek])
        · exact Or.inr (Or.inl (by simp [parseItem, hid, hc, hvv, hlv, hev]))
        · rcases parseTimestampField_classify i.created_at hcre with hck | hcv | ⟨tc, htc⟩
          · exact Or.inl (by simp [parseItem, hid, hc, hvv, hlv, hte, hck])
          · exact Or.inr (Or.inl (by simp [parseItem, hid, hc, hvv, hlv, hte, hcv]))
          · refine Or.inr (Or.inr ?_)
            simp [parseItem, hid, hc, hvv, hlv, hte, htc]

/-- On a batch of well-typed records the parser completes, keeping exactly
the successfully parsed markets and skipping the rest. -/
theorem parse_markets_ok_of_welltyped :
    ∀ (items : List RawItem), (∀ i ∈ items, wellTypedItem i = true) →
      parse_markets items = .ok (items.filterMap fun i => okOption (parseItem i)) := by
  intro items
  induction items with
  | nil => intro _; rfl
  | cons i rest ih =>
    intro h
    have hw := h i (by simp)
    have hr := ih fun j hj => h j (by simp [hj])
    rcases parseItem_welltyped_classify i hw with hk | hv | ⟨m, hm⟩
    · simp [parse_markets, hk, hr, okOption]
    · simp [parse_markets, hv, hr, okOption]
    · simp [parse_markets, hm, hr, okOption, Except.map]

/-- C7 (amended): on every batch whose records carry expected JSON runtime
types, the parser never raises — it yields exactly the parseable markets,
each bad record being skipped individually (`KeyError` for a missing
required field, `ValueError` for an unparsable string) — and the §8.8
scenario holds: a record missing `expiry` yields zero markets without
raising.  (Records with wrong-typed fields are outside this guarantee, see
the counterexample.) -/
theorem parseMarkets_skips_bad_records (items : List RawItem)
    (h : ∀ i ∈ items, wellTypedItem i = true) :
    parse_markets items = .ok (items.filterMap fun i => okOption (parseItem i)) ∧
    parse_markets [itemMissingExpiry] = .ok [] := by
  exact ⟨parse_markets_ok_of_welltyped items h, rfl⟩

/-- Witness for C7: a batch of one valid record and one record missing
`expiry` parses to exactly the one valid market. -/
theorem parseMarkets_skips_bad_records_witness :
    parse_markets [itemGoodRaw, itemMissingExpiry] =
      .ok [{ id := "g1",
             question := "Good?",
             description := "",
             category := "other",
             volume := 0,
             liquidity := 0,
             expiry := 1767225600,
             url := "https://opinion.trade/market/g1",
             created_at := 1748736000,
             tags := [] }] := by
  exact ((parseMarkets_skips_bad_records [itemGoodRaw, itemMissingExpiry]
    (by decide)).1).trans (by decide)

/-- C7 counterexample: a record whose `expiry` is a JSON number makes
`item['expiry'].replace` raise `AttributeError`, which the parser's
`except (KeyError, ValueError)` does not catch: the batch aborts and the
exception escapes the parser, contrary to the claim that no bad record
ever raises out of it. -/
theorem parseMarkets_aborts_on_nonstring_expiry :
    parse_markets [itemNumericExpiry] = .error .attributeError := by
  rfl

/-- C10: `/start` is idempotent — for a subscriber already present the
state (hence every preference field) is unchanged and nothing is saved;
for an absent subscriber exactly the default record (all categories
enabled, no keywords, zero thresholds, notifications on, empty
last-notified map) is inserted. -/
theorem cmdStart_idempotent_and_defaults (uid : Int) (st : BotState) :
    (∀ p, lookupA uid st.user_prefs = some p → cmd_start uid st = (st, false)) ∧
    (lookupA uid st.user_prefs = none →
      cmd_start uid st =
        ({ st with user_prefs := setA uid (defaultPreferences uid) st.user_prefs },
          true) ∧
      lookupA uid (cmd_start uid st).1.user_prefs =
        some { user_id := uid,
               enabled_categories := CATEGORIES.map Prod.fst,
               keywords := [],
               min_liquidity := 0,
               min_volume := 0,
               notify_on_launch := true,
               last_notified := [] }) := by
  constructor
  · intro p hp
    simp [cmd_start, hp]
  · intro hn
    refine ⟨by simp [cmd_start, hn], ?_⟩
    simp [cmd_start, hn, lookupA_setA_self, defaultPreferences]

/-- Witness for C10: re-running `/start` for the already-registered
subscriber 7 changes nothing and saves nothing. -/
theorem cmdStart_idempotent_and_defaults_witness :
    cmd_start 7 aliceState = (aliceState, false) := by
  exact (cmdStart_idempotent_and_defaults 7 aliceState).1 aliceSub rfl

end OpinionBot
